import Mathlib

/-!
Shallow embedding of the PDF-table reconstruction engine of the
covid-self-tests repository (src/covid_self_tests/report/pdf_table.py,
report/models.py, report/tga_rats.py), together with theorems settling the
frozen claims about it.  Machine strings are modelled as Lean strings
(all inputs are ASCII), Python dicts as association lists in insertion
order, and every fallible code path returns Except.
-/

set_option maxRecDepth 4000

namespace CovidSelfTests

/-- Decidable equality for fallible results, so that concrete runs of
the embedded code can be checked by evaluation. -/
instance {ε α : Type} [DecidableEq ε] [DecidableEq α] : DecidableEq (Except ε α) :=
  fun x y =>
    match x, y with
    | .ok a, .ok b =>
      if h : a = b then isTrue (by rw [h])
      else isFalse (by intro he; cases he; exact h rfl)
    | .error a, .error b =>
      if h : a = b then isTrue (by rw [h])
      else isFalse (by intro he; cases he; exact h rfl)
    | .ok _, .error _ => isFalse (by intro h; cases h)
    | .error _, .ok _ => isFalse (by intro h; cases h)

/-- Python whitespace test for the characters relevant here
(re module class backslash-s over ASCII text). -/
def pyIsSpace (c : Char) : Bool :=
  c == ' ' || c == '\t' || c == '\n' || c == '\r' || c == '\x0b' || c == '\x0c'

/-- Replace every maximal run of whitespace by a single space
(the re.sub of a whitespace-run pattern with a single space used by
PdfTableToRatReviewEntries norm helpers).  The Bool flag records whether
the previous character was part of a whitespace run. -/
def collapseWsAux : Bool → List Char → List Char
  | _, [] => []
  | inRun, c :: rest =>
    if pyIsSpace c then
      (if inRun then [] else [' ']) ++ collapseWsAux true rest
    else c :: collapseWsAux false rest

/-- str.strip of Python on a character list: drop whitespace at both ends. -/
def pyStripL (l : List Char) : List Char :=
  ((l.dropWhile pyIsSpace).reverse.dropWhile pyIsSpace).reverse

/-- str.strip of Python on a string. -/
def pyStrip (s : String) : String := String.mk (pyStripL s.data)

/-- Whitespace collapse as used in the norm helpers (the with-spaces value). -/
def collapseWs (s : String) : String := String.mk (collapseWsAux false s.data)

/-- The value domain of the row-normalisation helper: Python returns
None, a bool, or a non-empty string. -/
inductive CellVal where
  | none : CellVal
  | bool : Bool → CellVal
  | str : String → CellVal
deriving DecidableEq, Repr

/-- Python truthiness of a normalised cell value. -/
def CellVal.toTruth : CellVal → Bool
  | .none => false
  | .bool b => b
  | .str s => !(s == "")

/-- Python str() rendering of a normalised cell value, as used when the
value is concatenated into a dict accumulator. -/
def CellVal.pyStr : CellVal → String
  | .none => "None"
  | .bool true => "True"
  | .bool false => "False"
  | .str s => s

/-- PdfTableToRatReviewEntries norm: collapse whitespace runs, strip,
map the literal "yes"/"no" to booleans and the empty string to None. -/
def pdfNorm (value : String) : CellVal :=
  let result := pyStrip (collapseWs value)
  if result == "yes" then .bool true
  else if result == "no" then .bool false
  else if result == "" then .none
  else .str result

/-- Test that the first list occurs at the head of the second list. -/
def listStarts : List Char → List Char → Bool
  | [], _ => true
  | _ :: _, [] => false
  | a :: as, b :: bs => a == b && listStarts as bs

/-- Python str.startswith. -/
def pyStarts (s pre : String) : Bool := listStarts pre.data s.data

/-- First index at or after position i where pat occurs in s
(Python str.find with a start offset, returning none when absent). -/
def findSubAux (pat : List Char) : List Char → Nat → Option Nat
  | [], i => if pat.isEmpty then some i else Option.none
  | c :: rest, i =>
    if listStarts pat (c :: rest) then some i else findSubAux pat rest (i + 1)

/-- Python line.index(pat, start) as an Option of the absolute index:
search begins at character offset start. -/
def findSubFrom (s pat : List Char) (start : Nat) : Option Nat :=
  (findSubAux pat (s.drop start) 0).map (· + start)

/-- Python substring containment test (pat in s). -/
def containsSub (s pat : String) : Bool := (findSubFrom s.data pat.data 0).isSome

/-- PdfTableToRatReviewEntries norm-name: collapse and strip the value;
a non-empty result whose uncollapsed-but-space-collapsed form starts with
the multiple-products marker signals a new product name. -/
def pdfNormName (value : String) (multipleNameIndicator : String) :
    Bool × Option String :=
  let withSpaces := collapseWs value
  let result := pyStrip withSpaces
  if !(result == "") && !(withSpaces == "") && pyStarts withSpaces multipleNameIndicator then
    (true, some result)
  else if result == "" then (false, Option.none)
  else (false, some result)

/-- Lookup in a Python dict modelled as an association list in insertion
order (dict.get with default None). -/
def dictGet (d : List (String × String)) (k : String) : Option String :=
  (d.find? (fun kv => kv.1 == k)).map (fun kv => kv.2)

/-- Python dict assignment: replace the value of an existing key in
place, append a new key at the end. -/
def dictSet (d : List (String × String)) (k v : String) : List (String × String) :=
  match d with
  | [] => [(k, v)]
  | (k0, v0) :: rest =>
    if k0 == k then (k0, v) :: rest else (k0, v0) :: dictSet rest k v

/-- PdfTableToRatReviewEntries dict-add: ensure the key exists with an
empty default, append a space and the str() of the value when the value
is not None, then strip. -/
def dictAdd (d : List (String × String)) (k : String) (v : CellVal) :
    List (String × String) :=
  let d := if (dictGet d k).isNone then d ++ [(k, "")] else d
  let cur := (dictGet d k).getD ""
  let appended := cur ++ (if v == CellVal.none then "" else " " ++ v.pyStr)
  dictSet d k (pyStrip appended)

/-- PdfTableToRatReviewEntries list-add for the product-name slots:
the incoming value is the Option produced by the name normaliser, an
absent value contributes the empty string.  Python indexes the last slot,
so an empty slot list is an IndexError. -/
def listAddName (l : List String) (v : Option String) : Except String (List String) :=
  match l.getLast? with
  | Option.none => .error "IndexError: list index out of range"
  | some last => .ok (l.dropLast ++ [pyStrip (last ++ " " ++ v.getD "")])

/-- PdfTableToRatReviewEntries list-add for the evidence slots: the
incoming value is a normalised cell value; Python evaluates
(value or empty) and then concatenates, which is a TypeError when the
value is the boolean True. -/
def listAddEv (l : List String) (v : CellVal) : Except String (List String) :=
  match v with
  | .bool true => .error "TypeError: can only concatenate str to str"
  | _ =>
    let add := match v with | .str s => s | _ => ""
    match l.getLast? with
    | Option.none => .error "IndexError: list index out of range"
    | some last => .ok (l.dropLast ++ [pyStrip (last ++ " " ++ add)])

/-! ## Data model (report/models.py) -/

/-- models.RatReviewManufacturerEvidence: the group label is the
last-seen colon group, which is Python None before any colon slot. -/
structure RatReviewManufacturerEvidence where
  group : Option String
  name : String
deriving DecidableEq, Repr

/-- models.RatReviewAnalyticalSensitivity; comment is None when the cell
equalled one of the two legend indicators. -/
structure RatReviewAnalyticalSensitivity where
  name : String
  compliant : Bool
  comment : Option String
deriving DecidableEq, Repr

/-- models.RatReviewBatch. -/
structure RatReviewBatch where
  batch : String
  analytical_sensitivities : List RatReviewAnalyticalSensitivity
deriving DecidableEq, Repr

/-- models.RatReviewBatch.all_compliant: true iff no contained
sensitivity is non-compliant. -/
def RatReviewBatch.all_compliant (b : RatReviewBatch) : Bool :=
  b.analytical_sensitivities.all (fun i => i.compliant)

/-- models.RatReviewEntry: scalar fields are dict.get results, hence
Options (in the code paths below they are always present, holding the
accumulated, possibly empty, strings). -/
structure RatReviewEntry where
  artg : Option String
  comment : Option String
  sponsor : Option String
  manufacturer : Option String
  product_names : List String
  batches : List RatReviewBatch
  manufacturer_evidence : List RatReviewManufacturerEvidence
deriving DecidableEq, Repr

/-! ## Entry finalisation (PdfTableToRatReviewEntries build-entry) -/

/-- Character count of a character in a string (str.count for a
single-character needle). -/
def countChar (s : String) (c : Char) : Nat := s.data.count c

/-- Python str.split with a single-character separator: every separator
occurrence ends a field, an empty string yields one empty field. -/
def splitOnCharAux (sep : Char) : List Char → List Char → List (List Char)
  | [], acc => [acc.reverse]
  | c :: rest, acc =>
    if c == sep then acc.reverse :: splitOnCharAux sep rest []
    else splitOnCharAux sep rest (c :: acc)

/-- Python str.split on a single-character separator, over strings. -/
def pySplit (s : String) (sep : Char) : List String :=
  (splitOnCharAux sep s.data []).map String.mk

/-- The manufacturer-evidence loop of build-entry: skip empty slots;
exactly one colon starts a new current group with its comma-separated
values; more than one colon is fatal; no colon reuses the current group
for the slot's comma-separated values. -/
def buildEvidence (group : Option String) :
    List String → Except String (List RatReviewManufacturerEvidence)
  | [] => .ok []
  | item :: rest =>
    if item == "" then buildEvidence group rest
    else
      let cc := countChar item ':'
      if cc == 1 then
        match pySplit item ':' with
        | [grp, vals] =>
          (buildEvidence (some grp) rest).map
            (fun r => (pySplit vals ',').map (fun v => ⟨some grp, v⟩) ++ r)
        | _ => .error "unreachable: single colon split"
      else if cc > 1 then .error "ValueError: evidence item"
      else
        (buildEvidence group rest).map
          (fun r => (pySplit item ',').map (fun v => ⟨group, v⟩) ++ r)

/-- One batch slot converted to a RatReviewBatch: every non-batch field
is compared to the yes and no indicator values captured from the legend;
equality with yes gives compliant with no comment, equality with no gives
non-compliant with no comment, anything else gives non-compliant with the
cell text as comment. -/
def buildBatchSlot (yes no : String) (slot : List (String × String)) : RatReviewBatch :=
  ⟨(dictGet slot "batch").getD "",
    (slot.filter (fun kv => !(kv.1 == "batch"))).map (fun kv =>
      ⟨kv.1, kv.2 == yes,
        if kv.2 == yes || kv.2 == no then Option.none else some kv.2⟩)⟩

/-- The batch loop of build-entry, including the lookups of the yes and
no legend keys that raise a KeyError when the legend lines never
occurred. -/
def buildBatchItems (indicators : List (String × String))
    (batches : List (List (String × String))) : Except String (List RatReviewBatch) :=
  match dictGet indicators "yes" with
  | Option.none => .error "KeyError: yes"
  | some yes =>
    match dictGet indicators "no" with
    | Option.none => .error "KeyError: no"
    | some no => .ok (batches.map (buildBatchSlot yes no))

/-- PdfTableToRatReviewEntries build-entry: evidence first, then the
indicator lookups and batch conversion, then the product names (slots
that normalised to empty are dropped), then the record. -/
def buildEntry (entry : List (String × String)) (names : List String)
    (batches : List (List (String × String))) (evidence : List String)
    (indicators : List (String × String)) : Except String RatReviewEntry :=
  (buildEvidence Option.none evidence).bind fun mev =>
    (buildBatchItems indicators batches).map fun batchItems =>
      ⟨dictGet entry "artg", dictGet entry "artg_comment",
        dictGet entry "sponsor", dictGet entry "manufacturer",
        names.filter (fun n => !(n == "") && !(pyStrip n == "")),
        batchItems, mev⟩

/-! ## The row stream fold (PdfTableToRatReviewEntries build) -/

/-- One sliced data row as handed to build: the raw string value of each
named column (get-row returns all ten columns once the header is
complete; the page tag is ignored by build). -/
structure Row where
  artg : String
  sponsor : String
  manufacturer : String
  name : String
  batch : String
  wild : String
  delta : String
  omicron : String
  quality : String
  provided : String
deriving DecidableEq, Repr

/-- The mutable accumulator of build. -/
structure BuildState where
  entries : List RatReviewEntry
  current_entry : List (String × String)
  current_names : List String
  current_batches : List (List (String × String))
  current_evidence : List String
deriving DecidableEq, Repr

/-- The empty accumulator build starts from. -/
def initState : BuildState := ⟨[], [], [], [], []⟩

/-- The identifier test of build: a normalised artg that is truthy and
contains any non-digit character is converted to a comment and the
identifier treated as absent.  Iterating a boolean True is a Python
TypeError. -/
def artgDigitCheck : CellVal → Except String (CellVal × Option String)
  | .none => .ok (.none, Option.none)
  | .bool false => .ok (.bool false, Option.none)
  | .bool true => .error "TypeError: bool is not iterable"
  | .str s =>
    if s.data.all Char.isDigit then .ok (.str s, Option.none)
    else .ok (.none, some s)

/-- The evidence-cursor condition of build, with Python short-circuit
evaluation: an empty value or an empty slot list opens a new slot; a
colon in the (string) value opens a new slot; testing colon containment
in a boolean is a TypeError. -/
def evidenceCond (provided : CellVal) (currentEvidence : List String) :
    Except String Bool :=
  if !provided.toTruth then .ok true
  else if currentEvidence.isEmpty then .ok true
  else
    match provided with
    | .str s => .ok (s.data.contains ':')
    | _ => .error "TypeError: argument of type bool is not iterable"

/-- One iteration of the build loop over a sliced row. -/
def buildStep (indicators : List (String × String)) (mp : String)
    (st : BuildState) (item : Row) : Except String BuildState :=
  let artg0 := pdfNorm item.artg
  let sponsor := pdfNorm item.sponsor
  let manufacturer := pdfNorm item.manufacturer
  let nn := pdfNormName item.name mp
  let isNewName := nn.1
  let name := nn.2
  let batch := pdfNorm item.batch
  let wild := pdfNorm item.wild
  let delta := pdfNorm item.delta
  let omicron := pdfNorm item.omicron
  let quality := pdfNorm item.quality
  let provided := pdfNorm item.provided
  match artgDigitCheck artg0 with
  | .error e => .error e
  | .ok (artg, artgComment) =>
    let closed : Except String BuildState :=
      if artg.toTruth && !st.current_entry.isEmpty then
        (buildEntry st.current_entry st.current_names st.current_batches
            st.current_evidence indicators).map
          (fun e => ⟨st.entries ++ [e], [], [], [], []⟩)
      else .ok st
    match closed with
    | .error e => .error e
    | .ok st =>
      let ce := if artg.toTruth then [] else st.current_entry
      let cn := if name.isNone || st.current_names.isEmpty || isNewName then
          st.current_names ++ [""] else st.current_names
      let cb := if batch.toTruth then st.current_batches ++ [[]] else st.current_batches
      match evidenceCond provided st.current_evidence with
      | .error e => .error e
      | .ok evOpen =>
        let cev := if evOpen then st.current_evidence ++ [""] else st.current_evidence
        let ce := dictAdd ce "artg" artg
        let ce := dictAdd ce "sponsor" sponsor
        let ce := dictAdd ce "manufacturer" manufacturer
        let ce := dictAdd ce "artg_comment"
          (match artgComment with | some s => .str s | Option.none => .none)
        match listAddName cn name with
        | .error e => .error e
        | .ok cn =>
          match cb.getLast? with
          | Option.none => .error "IndexError: list index out of range"
          | some lastSlot =>
            let lastSlot := dictAdd lastSlot "batch" batch
            let lastSlot := dictAdd lastSlot "wild" wild
            let lastSlot := dictAdd lastSlot "delta" delta
            let lastSlot := dictAdd lastSlot "omicron" omicron
            let lastSlot := dictAdd lastSlot "quality" quality
            let cb := cb.dropLast ++ [lastSlot]
            match listAddEv cev provided with
            | .error e => .error e
            | .ok cev => .ok ⟨st.entries, ce, cn, cb, cev⟩

/-- The loop over the row stream.  On exhaustion the accumulated entries
are returned as they stand: the code has no end-of-stream close of the
in-progress entry. -/
def buildLoop (indicators : List (String × String)) (mp : String) :
    BuildState → List Row → Except String (List RatReviewEntry)
  | st, [] => .ok st.entries
  | st, r :: rest =>
    match buildStep indicators mp st r with
    | .error e => .error e
    | .ok st => buildLoop indicators mp st rest

/-- PdfTableToRatReviewEntries.build: the multiple-products legend key is
looked up before any row is processed, then the stream is folded. -/
def buildEntries (data : List Row) (indicators : List (String × String)) :
    Except String (List RatReviewEntry) :=
  match dictGet indicators "multiple-products" with
  | Option.none => .error "KeyError: multiple-products"
  | some mp => buildLoop indicators mp initState data

/-! ## Header detection (PdfTableHeader) -/

/-- One static column description. -/
structure ColSpec where
  name : String
  columns : List String
  align : String
deriving DecidableEq, Repr

/-- The static column table of PdfTableHeader. -/
def rawColumns : List ColSpec :=
  [⟨"artg", ["ARTG"], "left"⟩,
   ⟨"sponsor", ["Sponsor"], "left"⟩,
   ⟨"manufacturer", ["Manufacturer"], "left"⟩,
   ⟨"name", ["Test Kit name"], "left"⟩,
   ⟨"batch", ["TGA testing", "", "Batch number"], "middle"⟩,
   ⟨"wild", ["TGA", "testing", "", "Wild type", "analytical", "sensitivity"], "middle"⟩,
   ⟨"delta", ["TGA", "testing", "", "Delta", "analytical", "sensitivity"], "middle"⟩,
   ⟨"omicron", ["TGA", "testing", "", "Omicron", "analytical", "sensitivity"], "middle"⟩,
   ⟨"quality", ["TGA", "testing", "", "Device", "quality"], "middle"⟩,
   ⟨"provided", ["Manufacturer", "provided evidence"], "left"⟩]

/-- The column-separator width (two spaces). -/
def colSepLen : Int := 2

/-- Number of header text lines: the longest per-column fragment list. -/
def pdfHeaderRows : Nat := (rawColumns.map (fun c => c.columns.length)).foldl Nat.max 0

/-- The per-line fragment templates built by the build helper: one list
per header text line, one fragment per column, the empty string where a
column has no label on that line. -/
def pdfHeaderLines : List (List String) :=
  (List.range pdfHeaderRows).map (fun col =>
    rawColumns.map (fun rc => rc.columns.getD col ""))

/-- One recorded fragment match. -/
structure HMatch where
  header : String
  startIdx : Nat
  endIdx : Nat
  item : Nat
deriving DecidableEq, Repr

/-- The inner loop of add-header-line over one candidate row template:
empty fragments are skipped; a non-empty fragment is searched for from
the current cursor and, when found, recorded with the cursor advanced to
its end; when absent the whole row fails, discarding its matches but
keeping the cursor where the scan left it. -/
def scanFrags : List String → List Char → Nat → Nat → Option (List HMatch) × Nat
  | [], _, c, _ => (some [], c)
  | f :: rest, line, c, idx =>
    if f == "" then scanFrags rest line c (idx + 1)
    else
      match findSubFrom line f.data c with
      | Option.none => (Option.none, c)
      | some s =>
        let e := s + f.length
        match scanFrags rest line e (idx + 1) with
        | (Option.none, c') => (Option.none, c')
        | (some ms, c') => (some (⟨f, s, e, idx⟩ :: ms), c')

/-- The outer loop of add-header-line: candidate row templates are tried
in order; a row whose scan succeeds with at least one recorded match
wins; otherwise the next row is tried with the cursor value left by the
previous scan (the code never resets it to the start of the line). -/
def tryRows : Nat → List (List String) → List Char → Nat → Option (Nat × List HMatch)
  | _, [], _, _ => Option.none
  | rowIdx, row :: rest, line, c =>
    match scanFrags row line c 0 with
    | (some ms, c') =>
      if ms.isEmpty then tryRows (rowIdx + 1) rest line c' else some (rowIdx, ms)
    | (Option.none, c') => tryRows (rowIdx + 1) rest line c'

/-- Modelled from the spec: the retry behaviour the spec describes,
where each candidate row template is scanned from the start of the line
rather than from the cursor left by the previous failed scan.  Defined
only to be compared with the code's tryRows. -/
def tryRowsSpecReset : Nat → List (List String) → List Char → Option (Nat × List HMatch)
  | _, [], _ => Option.none
  | rowIdx, row :: rest, line =>
    match scanFrags row line 0 0 with
    | (some ms, _) =>
      if ms.isEmpty then tryRowsSpecReset (rowIdx + 1) rest line else some (rowIdx, ms)
    | (Option.none, _) => tryRowsSpecReset (rowIdx + 1) rest line

/-- The accumulator of PdfTableHeader: the matched rows keyed by
header-line rank, in insertion order. -/
structure HeaderState where
  actual : List (Nat × List HMatch)
deriving DecidableEq, Repr

/-- Python dict assignment on the accumulator. -/
def actualSet (d : List (Nat × List HMatch)) (k : Nat) (v : List HMatch) :
    List (Nat × List HMatch) :=
  match d with
  | [] => [(k, v)]
  | (k0, v0) :: rest =>
    if k0 == k then (k0, v) :: rest else (k0, v0) :: actualSet rest k v

/-- PdfTableHeader.is_complete. -/
def isComplete (st : HeaderState) : Bool := st.actual.length == pdfHeaderRows

/-- PdfTableHeader.add_header_line: a no-op returning false after
completion, otherwise the row templates are tried in order from cursor
zero and a successful row records its matches under its rank. -/
def addHeaderLine (st : HeaderState) (line : String) : HeaderState × Bool :=
  if isComplete st then (st, false)
  else
    match tryRows 0 pdfHeaderLines line.data 0 with
    | some (rowIdx, ms) => (⟨actualSet st.actual rowIdx ms⟩, true)
    | Option.none => (st, false)

/-! ## Header geometry (PdfTableHeader header_indexes) -/

/-- The per-column union of matched fragments before neighbour widening. -/
structure ColInit where
  name : String
  start : Int
  stop : Int
deriving DecidableEq, Repr

/-- The final per-column geometry (the info debug string is omitted; the
lookups feeding it are still performed for error fidelity). -/
structure ColRange where
  name : String
  start : Int
  stop : Int
  align : String
deriving DecidableEq, Repr

/-- Lookup in the initial accumulator keyed by column index. -/
def initLookup (l : List (Nat × ColInit)) (k : Nat) : Option ColInit :=
  (l.find? (fun kv => kv.1 == k)).map (fun kv => kv.2)

/-- Replacement in the initial accumulator keyed by column index. -/
def initSet (l : List (Nat × ColInit)) (k : Nat) (v : ColInit) : List (Nat × ColInit) :=
  match l with
  | [] => [(k, v)]
  | (k0, v0) :: rest =>
    if k0 == k then (k0, v) :: rest else (k0, v0) :: initSet rest k v

/-- Folding one recorded match into the initial accumulator: a first
match for a column is inserted as is, later matches lower the start to
their minimum and raise the end to their maximum. -/
def initStep (acc : List (Nat × ColInit)) (m : HMatch) :
    Except String (List (Nat × ColInit)) :=
  match rawColumns.get? m.item with
  | Option.none => .error "IndexError: raw columns"
  | some col =>
    match initLookup acc m.item with
    | Option.none => .ok (acc ++ [(m.item, ⟨col.name, (m.startIdx : Int), (m.endIdx : Int)⟩)])
    | some cur =>
      let cur := if (m.startIdx : Int) ≤ cur.start then
          { cur with start := (m.startIdx : Int) } else cur
      let cur := if (m.endIdx : Int) ≥ cur.stop then
          { cur with stop := (m.endIdx : Int) } else cur
      .ok (initSet acc m.item cur)

/-- Folding one recorded header row into the initial accumulator. -/
def buildInitialRow (acc : List (Nat × ColInit)) :
    List HMatch → Except String (List (Nat × ColInit))
  | [] => .ok acc
  | m :: ms =>
    match initStep acc m with
    | .error e => .error e
    | .ok acc => buildInitialRow acc ms

/-- The first loop of header-indexes over every recorded header row. -/
def buildInitialRows (acc : List (Nat × ColInit)) :
    List (Nat × List HMatch) → Except String (List (Nat × ColInit))
  | [] => .ok acc
  | (_, ms) :: rest =>
    match buildInitialRow acc ms with
    | .error e => .error e
    | .ok acc => buildInitialRows acc rest

/-- The initial per-column geometry from the accumulator. -/
def buildInitial (actual : List (Nat × List HMatch)) :
    Except String (List (Nat × ColInit)) :=
  buildInitialRows [] actual

/-- Error-propagating sequencing over fallible computations, written as
an explicit definition so success can be inverted structurally. -/
def exBind {α β : Type} (x : Except String α) (f : α → Except String β) :
    Except String β :=
  match x with
  | .error e => .error e
  | .ok a => f a

/-- An Option forced to a value, failing with the given message (a
Python dict or list subscript). -/
def fromOpt {α : Type} (o : Option α) (msg : String) : Except String α :=
  match o with
  | some a => .ok a
  | Option.none => .error msg

/-- Subscript into the static column table (raw-columns of the code). -/
def colAt (i : Nat) : Except String ColSpec :=
  fromOpt (rawColumns.get? i) "IndexError: raw columns"

/-- The next-neighbour block of header-indexes: for a non-last column
the neighbour's initial geometry and alignment are fetched (a missing
neighbour is a KeyError); for the last column the sentinel values are
used and the end index is preset to the open-ended marker. -/
def nextInfoF (initial : List (Nat × ColInit)) (index : Nat) (h : ColInit) :
    Except String (Int × Option String × Int) :=
  if index + 1 < rawColumns.length then
    exBind (fromOpt (initLookup initial (index + 1)) "KeyError: initial next") fun ni =>
      exBind (colAt (index + 1)) fun ncol => .ok (ni.start, some ncol.align, h.stop)
  else .ok (-1, Option.none, -1)

/-- The previous-neighbour block of header-indexes: a non-first column
keeps its own start (after fetching the neighbour, whose absence is a
KeyError); the first column's start is forced to zero. -/
def startInfoF (initial : List (Nat × ColInit)) (index : Nat) (h : ColInit) :
    Except String Int :=
  if 0 < index then
    exBind (fromOpt (initLookup initial (index - 1)) "KeyError: initial prev") fun _ =>
      .ok h.start
  else .ok 0

/-- The second-next-neighbour fetch feeding only the debug line, kept
for its KeyError. -/
def next2F (initial : List (Nat × ColInit)) (index : Nat) : Except String Unit :=
  if index + 2 < rawColumns.length then
    exBind (fromOpt (initLookup initial (index + 2)) "KeyError: initial next2") fun _ =>
      .ok ()
  else .ok ()

/-- The second-previous-neighbour fetch feeding only the debug line,
kept for its KeyError. -/
def prev2F (initial : List (Nat × ColInit)) (index : Nat) : Except String Unit :=
  if 1 < index then
    exBind (fromOpt (initLookup initial (index - 2)) "KeyError: initial prev2") fun _ =>
      .ok ()
  else .ok ()

/-- The neighbour-widening step of header-indexes for one column: the
last column's end becomes the open-ended marker, a column whose right
neighbour is left-aligned has its end moved to that neighbour's start
minus the separator width, the first column's start is forced to zero,
and an invalid range raises. -/
def adjustColumn (initial : List (Nat × ColInit)) (index : Nat) (h : ColInit) :
    Except String ColRange :=
  exBind (colAt index) fun col =>
  exBind (nextInfoF initial index h) fun nx =>
  exBind (startInfoF initial index h) fun startIndex =>
  exBind (next2F initial index) fun _ =>
  exBind (prev2F initial index) fun _ =>
    let endIndex := if nx.2.1 == some "left" then nx.1 - colSepLen else nx.2.2
    if decide (startIndex < 0) || (decide (startIndex ≥ endIndex) && decide (endIndex ≥ 0)) then
      .error ("ValueError: " ++ h.name)
    else .ok ⟨h.name, startIndex, endIndex, col.align⟩

/-- The second loop of header-indexes over the initial accumulator in
insertion order. -/
def adjustAll (initial : List (Nat × ColInit)) :
    List (Nat × ColInit) → Except String (List (Nat × ColRange))
  | [] => .ok []
  | (i, h) :: rest =>
    match adjustColumn initial i h with
    | .error e => .error e
    | .ok r =>
      match adjustAll initial rest with
      | .error e => .error e
      | .ok rs => .ok ((i, r) :: rs)

/-- PdfTableHeader.header_indexes as a function of the accumulator. -/
def headerIndexes (actual : List (Nat × List HMatch)) :
    Except String (List (Nat × ColRange)) :=
  match buildInitial actual with
  | .error e => .error e
  | .ok initial => adjustAll initial initial

/-- Lookup in the computed geometry keyed by column index. -/
def rangeLookup (l : List (Nat × ColRange)) (k : Nat) : Option ColRange :=
  (l.find? (fun kv => kv.1 == k)).map (fun kv => kv.2)

/-! ## Legend capture (PdfTableDocument) -/

/-- The legend key-line table of PdfTableDocument, in declaration order. -/
def keyLines : List (String × String) :=
  [("yes", "Compliant with the WHO guidelines (LOD within range 100-1000 TCID50/mL) during TGA validation"),
   ("no", "Non-compliant with the WHO guidelines (LOD does not fall within the range 100-1000 TCID50/mL) during TGA validation"),
   ("multiple-products", "Where multiple RATs are included under the one (1) ARTG number and have the same product composition, they have"),
   ("tests-protein-studies", "In manufacturer provided evidence, variants that have only been tested with recombinant protein studies.")]

/-- The single leading character of a line as a one-character string
(only evaluated on lines that contain a legend sentence, which are
therefore non-empty). -/
def lineHead (line : String) : String :=
  match line.data with
  | [] => ""
  | c :: _ => String.mk [c]

/-- PdfTableDocument key-indicator: the first legend key whose sentence
is contained in the line, paired with the line's leading character. -/
def keyIndicator (line : String) : Option (String × String) :=
  keyLines.findSome? (fun kv =>
    if containsSub line kv.2 then some (kv.1, lineHead line) else Option.none)

/-- The legend-recording step of PdfTableDocument.read: a matching line
assigns its indicator into the mapping unconditionally. -/
def recordIndicator (indicators : List (String × String)) (line : String) :
    List (String × String) :=
  match keyIndicator line with
  | some kv => dictSet indicators kv.1 kv.2
  | Option.none => indicators

/-! ## Batch evaluation (report/tga_rats.py Report eval-review-batches) -/

/-- Lexicographic strict order on character lists by code point, the
order Python uses to compare strings. -/
def listLtChars : List Char → List Char → Bool
  | [], [] => false
  | [], _ :: _ => true
  | _ :: _, [] => false
  | a :: as, b :: bs =>
    if a == b then listLtChars as bs else Nat.blt a.val.toNat b.val.toNat

/-- Non-strict string comparison by code point. -/
def strLe (a b : String) : Bool := !(listLtChars b.data a.data)

/-- Stable insertion of a batch into a run sorted by batch code: an
element is placed before the first element whose key it does not
exceed, preserving the original order of equal keys, as Python's stable
sort does. -/
def insertByKey (x : RatReviewBatch) : List RatReviewBatch → List RatReviewBatch
  | [] => [x]
  | y :: ys => if strLe x.batch y.batch then x :: y :: ys else y :: insertByKey x ys

/-- Python sorted with the batch code as key (stable, ascending). -/
def sortByBatch : List RatReviewBatch → List RatReviewBatch
  | [] => []
  | x :: xs => insertByKey x (sortByBatch xs)

/-- The result loop of eval-review-batches: a compliant sensitivity maps
to yes, otherwise the comment truthiness and the non-compliance test
both map to no; the final branch of the source raises but is
unreachable. -/
def evalSensList : List RatReviewAnalyticalSensitivity → List (String × String) →
    Except String (List (String × String))
  | [], acc => .ok acc
  | i :: rest, acc =>
    if i.compliant then evalSensList rest (dictSet acc i.name "yes")
    else if (match i.comment with | some s => !(s == "") | Option.none => false) then
      evalSensList rest (dictSet acc i.name "no")
    else if !i.compliant then evalSensList rest (dictSet acc i.name "no")
    else .error "ValueError: unreachable sensitivity"

/-- Report eval-review-batches: an empty batch list gives an empty
result; otherwise the batches are sorted by batch code and the last one
evaluated, after requiring, when there is more than one batch, that
all-but-the-last of the original sequence be uniformly fully-compliant
or uniformly not-fully-compliant. -/
def evalReviewBatches (batches : List RatReviewBatch) :
    Except String (List (String × String)) :=
  if batches.isEmpty then .ok []
  else
    let sorted := sortByBatch batches
    match sorted.getLast? with
    | Option.none => .error "IndexError: sorted batches"
    | some batch =>
      let check : Except String Unit :=
        if 1 < batches.length then
          let prevAllBad := batches.dropLast.all (fun b => !b.all_compliant)
          let prevAllGood := batches.dropLast.all (fun b => b.all_compliant)
          if !prevAllBad && !prevAllGood then
            .error "ValueError: ambiguous batch order"
          else .ok ()
        else .ok ()
      match check with
      | .error e => .error e
      | .ok _ => evalSensList batch.analytical_sensitivities []

/-- The mixed pattern the ambiguity check rejects: all-but-the-last
batch neither uniformly fully-compliant nor uniformly
not-fully-compliant. -/
def mixedPattern (batches : List RatReviewBatch) : Bool :=
  !(batches.dropLast.all (fun b => !b.all_compliant)) &&
    !(batches.dropLast.all (fun b => b.all_compliant))

/-! ## Concrete instances used by the claims -/

/-- A captured legend mapping with all three keys build and build-entry
look up. -/
def ind1 : List (String × String) :=
  [("multiple-products", "#"), ("yes", "Y"), ("no", "N")]

/-- A single row carrying an identifier, a batch and an evidence cell. -/
def c1row : Row := ⟨"123", "S", "M", "Prod", "B1", "Y", "Y", "Y", "Y", "Variant: A"⟩

/-- A row whose identifier cell holds non-digit commentary. -/
def c8row1 : Row :=
  ⟨"ARTG12345(withdrawn)", "S1", "M1", "P1", "B1", "Y", "Y", "Y", "Y", "Variant: A"⟩

/-- A following row whose fresh digit identifier closes the first entry. -/
def c8row2 : Row := ⟨"67890", "S2", "M2", "P2", "B2", "Y", "Y", "Y", "Y", "Var: B"⟩

/-- The entry the code produces for the two rows above. -/
def c8expected : RatReviewEntry :=
  ⟨some "", some "ARTG12345(withdrawn)", some "S1", some "M1", ["P1"],
    [⟨"B1", [⟨"wild", true, Option.none⟩, ⟨"delta", true, Option.none⟩,
      ⟨"omicron", true, Option.none⟩, ⟨"quality", true, Option.none⟩]⟩],
    [⟨some "Variant", " A"⟩]⟩

/-- A row whose batch cell is whitespace only. -/
def c9row : Row := ⟨"123", "S", "M", "P", "  ", "Y", "Y", "Y", "Y", "E"⟩

/-- A run of n spaces. -/
def spaces (n : Nat) : String := String.mk (List.replicate n ' ')

/-- A first header text line laid out on the template's first row. -/
def hL0 : String :=
  "ARTG" ++ spaces 2 ++ "Sponsor" ++ spaces 2 ++ "Manufacturer" ++ spaces 2 ++
    "Test Kit name" ++ spaces 6 ++ "TGA testing" ++ spaces 3 ++ "TGA" ++ spaces 9 ++
    "TGA" ++ spaces 9 ++ "TGA" ++ spaces 9 ++ "TGA" ++ spaces 9 ++ "Manufacturer"

/-- A second header text line matching the template's second row. -/
def hL1 : String :=
  spaces 62 ++ "testing" ++ spaces 5 ++ "testing" ++ spaces 5 ++ "testing" ++
    spaces 5 ++ "testing" ++ spaces 5 ++ "provided evidence"

/-- A third header text line matching the template's third row. -/
def hL2 : String := spaces 48 ++ "Batch number"

/-- A fourth header text line matching the template's fourth row. -/
def hL3 : String :=
  spaces 62 ++ "Wild type" ++ spaces 3 ++ "Delta" ++ spaces 7 ++ "Omicron" ++
    spaces 5 ++ "Device"

/-- A fifth header text line matching the template's fifth row. -/
def hL4 : String :=
  spaces 62 ++ "analytical" ++ spaces 2 ++ "analytical" ++ spaces 2 ++
    "analytical" ++ spaces 2 ++ "quality"

/-- A sixth header text line matching the template's sixth row. -/
def hL5 : String :=
  spaces 62 ++ "sensitivity" ++ spaces 1 ++ "sensitivity" ++ spaces 1 ++ "sensitivity"

/-- Feeding one line to the header detector, keeping the state. -/
def hStep (st : HeaderState) (l : String) : HeaderState := (addHeaderLine st l).1

/-- The detector state after the six header lines above: complete. -/
def ex4state : HeaderState :=
  hStep (hStep (hStep (hStep (hStep (hStep ⟨[]⟩ hL0) hL1) hL2) hL3) hL4) hL5

/-- The geometry the code computes for the six lines above. -/
def ex4res : List (Nat × ColRange) :=
  [(0, ⟨"artg", 0, 4, "left"⟩), (1, ⟨"sponsor", 6, 13, "left"⟩),
   (2, ⟨"manufacturer", 15, 27, "left"⟩), (3, ⟨"name", 29, 42, "left"⟩),
   (4, ⟨"batch", 48, 60, "middle"⟩), (5, ⟨"wild", 62, 73, "middle"⟩),
   (6, ⟨"delta", 74, 85, "middle"⟩), (7, ⟨"omicron", 86, 97, "middle"⟩),
   (8, ⟨"quality", 98, 108, "middle"⟩), (9, ⟨"provided", 110, -1, "left"⟩)]

/-- A character range strictly wider than the column separator lies
between column i's end and column i+1's start: those characters belong
to no column. -/
def hasUncoveredGap (res : List (Nat × ColRange)) (i : Nat) : Bool :=
  match rangeLookup res i, rangeLookup res (i + 1) with
  | some a, some b => decide (a.stop + colSepLen < b.start)
  | _, _ => false

/-- A line that row template one matches from the start of the line but
that the code rejects because the cursor left by row template zero's
failed scan is past the fragments. -/
def c5line : String := "testing  testing  testing  testing  provided evidence  ARTG"

/-- A legend line for the compliant sentence with leading character Y. -/
def c2line1 : String :=
  "Y Compliant with the WHO guidelines (LOD within range 100-1000 TCID50/mL) during TGA validation"

/-- A later line containing the same legend sentence with a different
leading character. -/
def c2line2 : String :=
  "* Compliant with the WHO guidelines (LOD within range 100-1000 TCID50/mL) during TGA validation"

/-- A legend line for the noncompliant sentence with leading character N. -/
def c3lineNo : String :=
  "N Non-compliant with the WHO guidelines (LOD does not fall within the range 100-1000 TCID50/mL) during TGA validation"

/-- The compliant legend sentence itself. -/
def yesSentence : String :=
  "Compliant with the WHO guidelines (LOD within range 100-1000 TCID50/mL) during TGA validation"

/-- The indicators captured from the two legend lines above. -/
def ind3 : List (String × String) := recordIndicator (recordIndicator [] c2line1) c3lineNo

/-- A batch slot whose wild cell holds the full compliant sentence. -/
def c3slot : List (String × String) := [("batch", "b1"), ("wild", yesSentence)]

/-- A batch that is not fully compliant. -/
def batchBad (code : String) : RatReviewBatch := ⟨code, [⟨"wild", false, some "fail"⟩]⟩

/-- A fully compliant batch. -/
def batchGood (code : String) : RatReviewBatch := ⟨code, [⟨"wild", true, Option.none⟩]⟩

/-! ## Helper lemmas -/

/-- After a dict assignment, lookup of the assigned key returns the
assigned value. -/
theorem dictGet_dictSet (d : List (String × String)) (k v : String) :
    dictGet (dictSet d k v) k = some v := by
  induction d with
  | nil => simp [dictSet, dictGet, List.find?]
  | cons kv rest ih =>
    obtain ⟨k0, v0⟩ := kv
    by_cases h : (k0 == k) = true
    · simp [dictSet, h, dictGet, List.find?]
    · simp only [Bool.not_eq_true] at h
      simp only [dictSet, h, Bool.false_eq_true, if_false]
      simpa [dictGet, List.find?, h] using ih

/-! ## Claim theorems -/

/-- Claim C1 (code bug witness): the build fold never closes the final
in-progress entry at end of stream, so the single-entry input made of
one row carrying an identifier, a batch and an evidence cell yields an
empty entry list instead of the one ReviewEntry the spec promises. -/
theorem c1_final_entry_dropped : buildEntries [c1row] ind1 = .ok [] := by decide

/-- Claim C2 (counterexample): after a line containing the compliant
legend sentence with leading character Y has been captured, processing a
later line containing the same sentence with leading character star
changes the recorded value to star: the first occurrence does not win. -/
theorem c2_first_occurrence_overwritten :
    dictGet (recordIndicator [] c2line1) "yes" = some "Y" ∧
      dictGet (recordIndicator (recordIndicator [] c2line1) c2line2) "yes" = some "*" := by
  decide

/-- Claim C2 (amended): the recorded legend value comes from the last
processed line containing the key's sentence fragment: any matching line
overwrites the recorded value for its key regardless of the previous
state of the mapping. -/
theorem c2_last_occurrence_wins (ind : List (String × String)) (line k v : String)
    (h : keyIndicator line = some (k, v)) :
    dictGet (recordIndicator ind line) k = some v := by
  unfold recordIndicator
  rw [h]
  exact dictGet_dictSet ind k v

/-- Witness for the amended claim C2 at a concrete later legend line. -/
theorem c2_last_occurrence_wins_witness :
    dictGet (recordIndicator [("yes", "Y")] c2line2) "yes" = some "*" :=
  c2_last_occurrence_wins [("yes", "Y")] c2line2 "yes" "*" (by decide)

/-- Claim C3 (counterexample): with the legend captured from the
compliant line with leading character Y and the noncompliant line with
leading character N, a sensitivity cell equal to the exact compliant
sentence does not map to compliant: the code compares the cell to the
recorded leading character, so the sentence cell becomes non-compliant
with the sentence preserved as the comment. -/
theorem c3_sentence_cell_not_compliant :
    buildBatchItems ind3 [c3slot] =
        .ok [⟨"b1", [⟨"wild", false, some yesSentence⟩]⟩] ∧
      buildBatchItems ind3 [c3slot] ≠
        .ok [⟨"b1", [⟨"wild", true, Option.none⟩]⟩] := by
  constructor
  · decide
  · decide

/-- Claim C3 (amended): a non-batch field of a batch slot is compared
against the recorded legend indicators, which are the single leading
characters of the legend lines: a cell equal to the yes indicator maps
to compliant with no comment, a cell equal to the no indicator maps to
non-compliant with no comment, and any other cell text maps to
non-compliant with that text preserved verbatim as the comment. -/
theorem c3_cell_vs_indicator_char (ind : List (String × String)) (y n b k v : String)
    (hk : (k == "batch") = false)
    (hy : dictGet ind "yes" = some y) (hn : dictGet ind "no" = some n) :
    buildBatchItems ind [[("batch", b), (k, v)]] =
      .ok [⟨b, [⟨k, v == y, if v == y || v == n then Option.none else some v⟩]⟩] := by
  unfold buildBatchItems
  rw [hy, hn]
  unfold buildBatchSlot
  simp [dictGet, List.find?, hk, List.filter]

/-- Witness for the amended claim C3 at concrete indicator characters
and a free-text cell. -/
theorem c3_cell_vs_indicator_char_witness :
    buildBatchItems ind1 [[("batch", "b1"), ("wild", "pending")]] =
      .ok [⟨"b1", [⟨"wild", false, some "pending"⟩]⟩] := by
  have h := c3_cell_vs_indicator_char ind1 "Y" "N" "b1" "wild" "pending"
    (by decide) (by decide) (by decide)
  simpa using h

/-- Claim C4 (counterexample): a completed header detection over six
lines matching the template produces ranges that do not cover the full
line width: between the name column's end and the batch column's start
lies a gap strictly wider than the column separator, because the batch
column is centered and no widening applies. -/
theorem c4_gap_before_centered_column :
    isComplete ex4state = true ∧
      headerIndexes ex4state.actual = .ok ex4res ∧
      hasUncoveredGap ex4res 3 = true := by
  refine ⟨by decide, by decide, by decide⟩

/-- Claim C5 (counterexample): a line rejected by the code although the
second header-line template matches it from the start of the line: the
first template's failed scan leaves the cursor past the fragments, and
the retry does not restart at the line start as the claim states. -/
theorem c5_retry_not_from_line_start :
    (addHeaderLine ⟨[]⟩ c5line).2 = false ∧
      (tryRowsSpecReset 0 pdfHeaderLines c5line.data).map (fun p => p.1) = some 1 := by
  refine ⟨by decide, by decide⟩

/-- Claim C5 (amended): when a candidate row template's scan fails on
some non-empty fragment, the row records nothing and the same line is
retried against the remaining templates with the scan resuming from the
cursor position the failed scan reached, not from the start of the
line. -/
theorem c5_cursor_persists_across_rows (rowIdx : Nat) (row : List String)
    (rest : List (List String)) (line : List Char) (c c' : Nat)
    (h : scanFrags row line c 0 = (Option.none, c')) :
    tryRows rowIdx (row :: rest) line c = tryRows (rowIdx + 1) rest line c' := by
  conv_lhs => rw [tryRows]
  rw [h]

/-- Witness for the amended claim C5: a failed first row hands its
cursor to the second row's scan. -/
theorem c5_cursor_persists_across_rows_witness :
    tryRows 0 [["ARTG"], []] "xy".data 0 = tryRows 1 [[]] "xy".data 0 :=
  c5_cursor_persists_across_rows 0 ["ARTG"] [[]] "xy".data 0 0 (by decide)

/-- Claim C6 (counterexample): the evidence cell Variant colon A comma B
followed by the continuation cell C does not yield the names A, B and C:
the split values are not trimmed, so the names keep their leading
spaces. -/
theorem c6_names_not_trimmed :
    buildEvidence Option.none ["Variant: A, B", "C"] ≠
      .ok [⟨some "Variant", "A"⟩, ⟨some "Variant", "B"⟩, ⟨some "Variant", "C"⟩] := by
  decide

/-- Claim C6 (amended): the two slots yield exactly three
ManufacturerEvidence entries, all with group Variant, whose names are
the comma-separated substrings verbatim including their leading spaces;
and a slot with more than one colon is a fatal error. -/
theorem c6_evidence_grouping :
    buildEvidence Option.none ["Variant: A, B", "C"] =
        .ok [⟨some "Variant", " A"⟩, ⟨some "Variant", " B"⟩, ⟨some "Variant", "C"⟩] ∧
      ∀ (g : Option String) (item : String) (rest : List String),
        1 < countChar item ':' →
        buildEvidence g (item :: rest) = .error "ValueError: evidence item" := by
  constructor
  · decide
  · intro g item rest hcc
    have hne : (item == "") = false := by
      cases he : item == "" with
      | true =>
        have : item = "" := by simpa using he
        subst this
        simp [countChar] at hcc
      | false => rfl
    have h1 : (countChar item ':' == 1) = false := by
      simp only [beq_eq_false_iff_ne, ne_eq]
      omega
    unfold buildEvidence
    simp only [hne, Bool.false_eq_true, if_false, h1]
    rw [if_pos hcc]

/-- Witness for the amended claim C6 at a two-colon slot. -/
theorem c6_evidence_grouping_witness :
    buildEvidence Option.none ["a:b:c"] = .error "ValueError: evidence item" :=
  c6_evidence_grouping.2 Option.none "a:b:c" [] (by decide)

/-- Claim C8 (counterexample): for the row whose identifier cell is
ARTG12345(withdrawn) the resulting entry's artg is not null: it is the
empty string the dict accumulator left behind. -/
theorem c8_artg_not_null :
    (buildEntries [c8row1, c8row2] ind1).map (List.map RatReviewEntry.artg) ≠
      .ok [Option.none] := by
  decide

/-- Claim C8 (amended): the non-digit identifier cell is treated as
absent for the row, leaving the entry's artg as the empty string
accumulated by the dict helper, and the cell's text is retained verbatim
as the entry's comment. -/
theorem c8_comment_retained :
    buildEntries [c8row1, c8row2] ind1 = .ok [c8expected] := by decide

/-- Inserting into a sorted run grows the length by one. -/
theorem length_insertByKey (x : RatReviewBatch) (l : List RatReviewBatch) :
    (insertByKey x l).length = l.length + 1 := by
  induction l with
  | nil => rfl
  | cons y ys ih =>
    unfold insertByKey
    split
    · simp
    · simp [ih]

/-- Sorting preserves the number of batches. -/
theorem length_sortByBatch (l : List RatReviewBatch) :
    (sortByBatch l).length = l.length := by
  induction l with
  | nil => rfl
  | cons x xs ih => simp [sortByBatch, length_insertByKey, ih]

/-- The result loop of eval-review-batches is total: its final raising
branch is unreachable because compliance is two-valued. -/
theorem evalSensList_ok (l : List RatReviewAnalyticalSensitivity) :
    ∀ acc, ∃ r, evalSensList l acc = .ok r := by
  induction l with
  | nil => intro acc; exact ⟨acc, rfl⟩
  | cons i rest ih =>
    intro acc
    unfold evalSensList
    cases hi : i.compliant with
    | true => simpa [hi] using ih (dictSet acc i.name "yes")
    | false =>
      cases hc : (match i.comment with | some s => !(s == "") | Option.none => false) with
      | true => simpa [hi, hc] using ih (dictSet acc i.name "no")
      | false => simpa [hi, hc] using ih (dictSet acc i.name "no")

/-- Claim C7: with more than one batch, evaluation fails exactly when
all-but-the-last batch of the original sequence are neither uniformly
fully-compliant nor uniformly not-fully-compliant; in particular the
all-compliance pattern false-false-true is accepted and
false-true-false is rejected. -/
theorem c7_ambiguous_batch_order :
    (∀ bs : List RatReviewBatch, 1 < bs.length →
        ((evalReviewBatches bs).isOk = false ↔ mixedPattern bs = true))
    ∧ (evalReviewBatches [batchBad "B1", batchBad "B2", batchGood "B3"]).isOk = true
    ∧ (evalReviewBatches [batchBad "B1", batchGood "B2", batchBad "B3"]).isOk = false := by
  refine ⟨?_, by decide, by decide⟩
  intro bs hlen
  have hne : bs.isEmpty = false := by
    cases bs with
    | nil => simp at hlen
    | cons x xs => rfl
  obtain ⟨b, hb⟩ : ∃ b, (sortByBatch bs).getLast? = some b := by
    have hsl : (sortByBatch bs).length = bs.length := length_sortByBatch bs
    cases hs : sortByBatch bs with
    | nil => rw [hs] at hsl; simp at hsl; omega
    | cons x xs =>
      exact ⟨(x :: xs).getLast (by simp), by rw [List.getLast?_eq_getLast _ (by simp)]⟩
  unfold evalReviewBatches
  rw [hne]
  simp only [Bool.false_eq_true, if_false]
  rw [hb, if_pos hlen]
  cases hm : mixedPattern bs with
  | true =>
    unfold mixedPattern at hm
    rw [if_pos hm]
    simp only [Except.isOk, Except.toBool]
  | false =>
    unfold mixedPattern at hm
    rw [if_neg (by rw [hm]; exact Bool.false_ne_true)]
    obtain ⟨r, hr⟩ := evalSensList_ok b.analytical_sensitivities []
    dsimp only
    rw [hr]
    simp [Except.isOk, Except.toBool]

/-- Witness for claim C7 at a concrete mixed three-batch sequence. -/
theorem c7_ambiguous_batch_order_witness :
    (evalReviewBatches [batchBad "A1", batchGood "A2", batchBad "A3"]).isOk = false :=
  (c7_ambiguous_batch_order.1 [batchBad "A1", batchGood "A2", batchBad "A3"]
    (by decide)).mpr (by decide)

/-- The evidence-cursor condition always opens a slot while no slot
exists, whatever the cell value. -/
theorem evidenceCond_nil (p : CellVal) : evidenceCond p [] = .ok true := by
  unfold evidenceCond
  cases hp : p.toTruth <;> simp [hp]

/-- Claim C9: a batch slot is only created when the row's batch cell
normalises to a truthy value, so on any non-empty row stream whose first
row's batch cell does not, the append to the last batch slot is out of
bounds and the whole build fails; equivalently, build succeeds only when
the first row carries a non-empty batch cell. -/
theorem c9_first_row_needs_batch (item : Row) (rest : List Row)
    (indicators : List (String × String)) (mp : String)
    (hmp : dictGet indicators "multiple-products" = some mp)
    (hb : (pdfNorm item.batch).toTruth = false) :
    (buildEntries (item :: rest) indicators).isOk = false := by
  have hstep : ∃ e, buildStep indicators mp initState item = .error e := by
    unfold buildStep
    cases hA : artgDigitCheck (pdfNorm item.artg) with
    | error e => simp only [hA]; exact ⟨e, rfl⟩
    | ok p =>
      obtain ⟨artg, artgComment⟩ := p
      simp only [hA, initState, List.isEmpty_nil, Bool.not_true, Bool.and_false,
        Bool.false_eq_true, if_false, evidenceCond_nil, hb,
        Bool.or_true, Bool.true_or, if_true, List.nil_append]
      exact ⟨_, rfl⟩
  unfold buildEntries
  rw [hmp]
  obtain ⟨e, he⟩ := hstep
  unfold buildLoop
  rw [he]
  rfl

/-- Witness for claim C9 at a concrete row whose batch cell is
whitespace only. -/
theorem c9_first_row_needs_batch_witness :
    (buildEntries [c9row] ind1).isOk = false :=
  c9_first_row_needs_batch c9row [] ind1 "#" (by decide) (by decide)

/-- Claim C10: build looks up the multiple-products legend key before
processing any row, so its absence fails every build including the empty
stream; and entry finalisation looks up the yes legend key, so once the
evidence slots have parsed, its absence fails the finalisation. -/
theorem c10_legend_keys_are_preconditions :
    (∀ (data : List Row) (indicators : List (String × String)),
        dictGet indicators "multiple-products" = Option.none →
        buildEntries data indicators = .error "KeyError: multiple-products")
    ∧ (∀ (entry : List (String × String)) (names : List String)
        (batches : List (List (String × String))) (evidence : List String)
        (indicators : List (String × String)) (mev : List RatReviewManufacturerEvidence),
        buildEvidence Option.none evidence = .ok mev →
        dictGet indicators "yes" = Option.none →
        buildEntry entry names batches evidence indicators = .error "KeyError: yes") := by
  constructor
  · intro data indicators h
    unfold buildEntries
    rw [h]
  · intro entry names batches evidence indicators mev hev hyes
    unfold buildEntry
    rw [hev]
    unfold buildBatchItems
    rw [hyes]
    rfl

/-- Witness for claim C10: the empty stream with an empty legend fails
with the missing-key error. -/
theorem c10_legend_keys_are_preconditions_witness :
    buildEntries [] [] = .error "KeyError: multiple-products" :=
  c10_legend_keys_are_preconditions.1 [] [] (by decide)

/-- Inversion of a successful fallible sequencing. -/
theorem exBind_ok {α β : Type} {x : Except String α} {f : α → Except String β} {r : β}
    (h : exBind x f = .ok r) : ∃ a, x = .ok a ∧ f a = .ok r := by
  cases x with
  | error e => simp [exBind] at h
  | ok a => exact ⟨a, rfl, h⟩

/-- Inversion of a successful forced Option. -/
theorem fromOpt_ok {α : Type} {o : Option α} {msg : String} {a : α}
    (h : fromOpt o msg = .ok a) : o = some a := by
  cases o with
  | none => simp [fromOpt] at h
  | some b => simp only [fromOpt] at h; injection h with h; rw [h]

/-- Shape of a successful next-neighbour block: for a non-last column
everything comes from the neighbour's initial geometry and alignment,
for the last column the sentinel and open-ended values are returned. -/
theorem nextInfoF_ok {initial : List (Nat × ColInit)} {i : Nat} {h0 : ColInit}
    {ns : Int} {na : Option String} {e0 : Int}
    (h : nextInfoF initial i h0 = .ok (ns, na, e0)) :
    (i + 1 < rawColumns.length →
      ∃ ni ncol, initLookup initial (i + 1) = some ni ∧
        rawColumns.get? (i + 1) = some ncol ∧
        ns = ni.start ∧ na = some ncol.align ∧ e0 = h0.stop)
    ∧ (¬ i + 1 < rawColumns.length → ns = -1 ∧ na = Option.none ∧ e0 = -1) := by
  by_cases hlt : i + 1 < rawColumns.length
  · rw [nextInfoF, if_pos hlt] at h
    obtain ⟨ni, hni, h⟩ := exBind_ok h
    obtain ⟨ncol, hncol, h⟩ := exBind_ok h
    injection h with h
    obtain ⟨h1, h2⟩ := Prod.mk.inj h
    obtain ⟨h2, h3⟩ := Prod.mk.inj h2
    exact ⟨fun _ => ⟨ni, ncol, fromOpt_ok hni, fromOpt_ok hncol, h1.symm, h2.symm, h3.symm⟩,
      fun hc => absurd hlt hc⟩
  · rw [nextInfoF, if_neg hlt] at h
    injection h with h
    obtain ⟨h1, h2⟩ := Prod.mk.inj h
    obtain ⟨h2, h3⟩ := Prod.mk.inj h2
    exact ⟨fun hc => absurd hc hlt, fun _ => ⟨h1.symm, h2.symm, h3.symm⟩⟩

/-- Shape of a successful previous-neighbour block: a non-first column
keeps its own start, the first column's start is forced to zero. -/
theorem startInfoF_ok {initial : List (Nat × ColInit)} {i : Nat} {h0 : ColInit} {s : Int}
    (h : startInfoF initial i h0 = .ok s) :
    (0 < i → s = h0.start) ∧ (i = 0 → s = 0) := by
  by_cases hi : 0 < i
  · rw [startInfoF, if_pos hi] at h
    obtain ⟨_, _, h⟩ := exBind_ok h
    injection h with h
    exact ⟨fun _ => h.symm, fun h0' => absurd hi (by omega)⟩
  · rw [startInfoF, if_neg hi] at h
    injection h with h
    exact ⟨fun hc => absurd hc hi, fun _ => h.symm⟩

/-- Properties of a successfully widened column: forced zero start for
the first column, preserved union start otherwise, the open-ended end
for the last column, and the left-aligned-neighbour widening rule
elsewhere, with the raw union end kept before centered neighbours. -/
theorem adjustColumn_ok {initial : List (Nat × ColInit)} {i : Nat} {h0 : ColInit}
    {r : ColRange} (h : adjustColumn initial i h0 = .ok r) :
    (i = 0 → r.start = 0) ∧
    (0 < i → r.start = h0.start) ∧
    (i + 1 = rawColumns.length → r.stop = -1) ∧
    (∀ ni, i + 1 < rawColumns.length → initLookup initial (i + 1) = some ni →
      r.stop = (if ((rawColumns.get? (i + 1)).map ColSpec.align == some "left") then
        ni.start - colSepLen else h0.stop)) := by
  unfold adjustColumn at h
  obtain ⟨col, hcol, h⟩ := exBind_ok h
  obtain ⟨nx, hnx, h⟩ := exBind_ok h
  obtain ⟨s, hs, h⟩ := exBind_ok h
  obtain ⟨u1, h21, h⟩ := exBind_ok h
  obtain ⟨u2, h22, h⟩ := exBind_ok h
  obtain ⟨ns, na, e0⟩ := nx
  dsimp only at h
  obtain ⟨hnxA, hnxB⟩ := nextInfoF_ok hnx
  obtain ⟨hsA, hsB⟩ := startInfoF_ok hs
  cases hcond : (decide (s < 0) ||
      (decide (s ≥ (if na == some "left" then ns - colSepLen else e0)) &&
        decide ((if na == some "left" then ns - colSepLen else e0) ≥ 0))) with
  | true => rw [hcond] at h; simp at h
  | false =>
    rw [hcond] at h
    simp only [Bool.false_eq_true, if_false] at h
    injection h with h
    subst h
    refine ⟨fun hi0 => hsB hi0, fun hip => hsA hip, fun hlast => ?_, fun ni hlt hni => ?_⟩
    · obtain ⟨h1, h2, h3⟩ := hnxB (by omega)
      subst h2; subst h3
      rfl
    · obtain ⟨ni', ncol, hni', hncol, hns, hna, he0⟩ := hnxA hlt
      rw [hni'] at hni
      injection hni with hni
      subst hni
      rw [hncol]
      subst hns; subst hna; subst he0
      rfl

/-- Every entry of a successful widening pass comes from widening the
matching entry of the initial accumulator. -/
theorem adjustAll_mem (initial : List (Nat × ColInit)) :
    ∀ (l : List (Nat × ColInit)) (res : List (Nat × ColRange)),
      adjustAll initial l = .ok res → ∀ i r, (i, r) ∈ res →
      ∃ h0, (i, h0) ∈ l ∧ adjustColumn initial i h0 = .ok r := by
  intro l
  induction l with
  | nil =>
    intro res h i r hmem
    unfold adjustAll at h
    injection h with h
    subst h
    simp at hmem
  | cons x rest ih =>
    obtain ⟨i0, h0⟩ := x
    intro res h i r hmem
    unfold adjustAll at h
    cases hadj : adjustColumn initial i0 h0 with
    | error e => rw [hadj] at h; cases h
    | ok r0 =>
      rw [hadj] at h
      cases hrest : adjustAll initial rest with
      | error e => rw [hrest] at h; cases h
      | ok rs =>
        rw [hrest] at h
        injection h with h
        subst h
        rcases List.mem_cons.mp hmem with h1 | h1
        · obtain ⟨hi, hr⟩ := Prod.mk.inj h1
          subst hi; subst hr
          exact ⟨h0, List.mem_cons_self _ _, hadj⟩
        · obtain ⟨h0', hm', ha'⟩ := ih rs hrest i r h1
          exact ⟨h0', List.mem_cons_of_mem _ hm', ha'⟩

/-- Claim C4 (amended): every column range of a successfully computed
geometry satisfies: the first column's start is forced to zero, any
other column keeps the start of its fragment union; the last column's
end is the open-ended marker; and a column with a right neighbour has
its end moved to the neighbour's start minus the separator width exactly
when the neighbour is left-aligned, keeping the raw fragment-union end
otherwise, so the ranges need not be contiguous nor cover the full line
width. -/
theorem c4_neighbour_widening (actual : List (Nat × List HMatch))
    (res : List (Nat × ColRange)) (h : headerIndexes actual = .ok res) :
    ∀ i r, (i, r) ∈ res → ∃ initial h0,
      buildInitial actual = .ok initial ∧ (i, h0) ∈ initial ∧
      (i = 0 → r.start = 0) ∧
      (0 < i → r.start = h0.start) ∧
      (i + 1 = rawColumns.length → r.stop = -1) ∧
      (∀ ni, i + 1 < rawColumns.length → initLookup initial (i + 1) = some ni →
        r.stop = (if ((rawColumns.get? (i + 1)).map ColSpec.align == some "left") then
          ni.start - colSepLen else h0.stop)) := by
  intro i r hmem
  unfold headerIndexes at h
  cases hb : buildInitial actual with
  | error e => rw [hb] at h; cases h
  | ok initial =>
    rw [hb] at h
    obtain ⟨h0, hm0, hadj⟩ := adjustAll_mem initial initial res h i r hmem
    obtain ⟨p1, p2, p3, p4⟩ := adjustColumn_ok hadj
    exact ⟨initial, h0, rfl, hm0, p1, p2, p3, p4⟩

/-- Witness for the amended claim C4: the last column of the concrete
completed detection is open-ended. -/
theorem c4_neighbour_widening_witness :
    (⟨"provided", 110, -1, "left"⟩ : ColRange).stop = -1 := by
  obtain ⟨ini, h0, hbi, hm, p1, p2, p3, p4⟩ :=
    c4_neighbour_widening ex4state.actual ex4res (by decide) 9
      ⟨"provided", 110, -1, "left"⟩ (by decide)
  exact p3 (by decide)

end CovidSelfTests
